import Mathlib

/-!
# Verification of the genomekit core against its specification

Shallow embedding of the genotype classification engine
(`genomekit/modules/snp_checker.py`) and the incremental variant-calling /
format fan-out pipeline (`genomekit/modules/microarray_generator.py`),
with theorems settling the frozen claims about the program.

Strings are modelled with Lean `String` (a wrapped `List Char` at this
toolchain version); Python string primitives used by the source
(`str.strip`, `str.upper`, `re.split`, `str.split`, `str.startswith`,
substring membership) are given explicit structural models below so that
every definition is executable and kernel-reducible.
-/

namespace GenomeKit

/-! ## String primitives modelling the Python operations used by the source -/

/-- `leadsWith p s` models Python `s.startswith(p)` on the char lists
(`p` first): true iff `p` is an initial segment of `s`. -/
def leadsWith : List Char → List Char → Bool
  | [], _ => true
  | _ :: _, [] => false
  | a :: as, b :: bs => a = b && leadsWith as bs

/-- Python `s.startswith(p)`. -/
def strStartsWith (s p : String) : Bool :=
  leadsWith p.data s.data

/-- Python `str.strip()` whitespace set (ASCII whitespace). -/
def isPySpace (c : Char) : Bool :=
  c = ' ' || c = '\t' || c = '\n' || c = '\r' || c = '\x0b' || c = '\x0c'

/-- Python `s.strip()`: drop leading and trailing whitespace. -/
def strTrim (s : String) : String :=
  ⟨((s.data.dropWhile isPySpace).reverse.dropWhile isPySpace).reverse⟩

/-- Splitter shared by the models of `re.split(r'[\t ,]', line)` and
Python `s.split(sep)` for a one-character separator: splits at every
separator character, keeping empty segments (both Python operations do). -/
def splitCharsAux (sep : Char → Bool) : List Char → List Char → List String
  | [], acc => [⟨acc.reverse⟩]
  | c :: rest, acc =>
    if sep c then ⟨acc.reverse⟩ :: splitCharsAux sep rest []
    else splitCharsAux sep rest (c :: acc)

/-- `re.split(r'[\t ,]', line)` from `_process_microarray_line`. -/
def splitParts (line : String) : List String :=
  splitCharsAux (fun c => c = '\t' || c = ' ' || c = ',') line.data []

/-- Python `s.split("/")`. -/
def splitOnSlash (s : String) : List String :=
  splitCharsAux (fun c => c = '/') s.data []

/-- Python `s.split("|")`. -/
def splitOnPipe (s : String) : List String :=
  splitCharsAux (fun c => c = '|') s.data []

/-- Python `"/" in s` (one-character substring membership). -/
def containsSlash (s : String) : Bool :=
  s.data.any (fun c => c = '/')

/-- Python `'rs' in snp_id`: the two-character substring `rs` occurs in `s`. -/
def hasRs : List Char → Bool
  | 'r' :: 's' :: _ => true
  | _ :: rest => hasRs rest
  | [] => false

/-- Python `s.upper()` (ASCII behaviour, which is all the source feeds it). -/
def strUpper (s : String) : String :=
  ⟨s.data.map Char.toUpper⟩

/-- `re.sub(r'[/|]', '', s)` from `_process_microarray_line` Format 2. -/
def stripDelims (s : String) : String :=
  ⟨s.data.filter (fun c => !(c = '/' || c = '|'))⟩

/-! ## Genotype normalizer (`SNPChecker._get_complement`, lines 111-118) -/

/-- `SNPChecker._get_complement`: dictionary lookup with the base itself as
default (`complements.get(base, base)`). -/
def getComplement (base : String) : String :=
  if base = "A" then "T"
  else if base = "T" then "A"
  else if base = "C" then "G"
  else if base = "G" then "C"
  else if base = "a" then "t"
  else if base = "t" then "a"
  else if base = "c" then "g"
  else if base = "g" then "c"
  else if base = "-" then "-"
  else if base = "N" then "N"
  else if base = "n" then "n"
  else base

/-! ## Variant classifier, sequential path (`SNPChecker.check_snp`, lines 382-425) -/

/-- Classification logic of `check_snp` after the genotype has been fetched:
given `protective_gt`, `risk_gt` and the resolved `actual_gt`, produce
`(display_gt, status)`.  `.error` models the `ValueError` Python raises at
`g1, g2 = actual_gt.split("/")` when the split does not yield exactly two
parts (no enclosing `try` in `check_snp`). -/
def checkSnpClassify (protective_gt risk_gt actual_gt : String) :
    Except String (String × String) :=
  if containsSlash actual_gt ∧ actual_gt ≠ "Unknown/Unknown" then
    match splitOnSlash actual_gt with
    | [g1, g2] =>
      let user_gt := actual_gt
      let rev_gt := g2 ++ "/" ++ g1
      let comp_user_gt := getComplement g1 ++ "/" ++ getComplement g2
      let comp_rev_gt := getComplement g2 ++ "/" ++ getComplement g1
      let display_gt :=
        if user_gt = protective_gt ∨ user_gt = risk_gt then user_gt
        else if rev_gt = protective_gt ∨ rev_gt = risk_gt then rev_gt
        else if comp_user_gt = protective_gt ∨ comp_user_gt = risk_gt then comp_user_gt
        else if comp_rev_gt = protective_gt ∨ comp_rev_gt = risk_gt then comp_rev_gt
        else user_gt
      let status :=
        if display_gt = protective_gt then "GOOD"
        else if display_gt = risk_gt then "RISK"
        else if g1 ≠ g2 then "CARRIER"
        else "VARIANT"
      .ok (display_gt, status)
    | _ => .error "ValueError"
  else
    .ok (actual_gt, "UNKNOWN")

/-! ## Variant classifier, threaded VCF path
(`SNPChecker.run_analysis`, `process_section_in_thread`, lines 549-589) -/

/-- The status loop of the threaded path:
`for match_gt in [user_gt, rev_gt, comp_user_gt, comp_rev_gt]` with
`GOOD`/`RISK` on the first hit and `break`; the pre-loop default status
is `"CARRIER"` (line 563). -/
def threadedStatusLoop (ref_gt alt_gt : String) : List String → String
  | [] => "CARRIER"
  | g :: rest =>
    if g = ref_gt then "GOOD"
    else if g = alt_gt then "RISK"
    else threadedStatusLoop ref_gt alt_gt rest

/-- Classification logic of the threaded VCF path (guard at line 549 is
only `actual_gt != "Unknown/Unknown"`; display selection as in `check_snp`;
status from `threadedStatusLoop` with default `CARRIER`). `.error` models
the `ValueError` from the two-variable unpacking of `split("/")`
(caught by the per-SNP `try` in the caller). -/
def threadedClassify (ref_gt alt_gt actual_gt : String) :
    Except String (String × String) :=
  if actual_gt ≠ "Unknown/Unknown" then
    match splitOnSlash actual_gt with
    | [g1, g2] =>
      let user_gt := actual_gt
      let rev_gt := g2 ++ "/" ++ g1
      let comp_user_gt := getComplement g1 ++ "/" ++ getComplement g2
      let comp_rev_gt := getComplement g2 ++ "/" ++ getComplement g1
      let display_gt :=
        if user_gt = ref_gt ∨ user_gt = alt_gt then user_gt
        else if rev_gt = ref_gt ∨ rev_gt = alt_gt then rev_gt
        else if comp_user_gt = ref_gt ∨ comp_user_gt = alt_gt then comp_user_gt
        else if comp_rev_gt = ref_gt ∨ comp_rev_gt = alt_gt then comp_rev_gt
        else user_gt
      let status := threadedStatusLoop ref_gt alt_gt
        [user_gt, rev_gt, comp_user_gt, comp_rev_gt]
      .ok (display_gt, status)
    | _ => .error "ValueError"
  else
    .ok ("Unknown/Unknown", "UNKNOWN")

/-! ## Microarray data loading
(`SNPChecker._process_microarray_line`, lines 120-174, and
`SNPChecker._load_microarray_data`, lines 90-109) -/

/-- A character admitted by the character class `[ACGTN-]` under
`re.IGNORECASE`. -/
def isValidBaseCI (c : Char) : Bool :=
  c = 'A' || c = 'C' || c = 'G' || c = 'T' || c = 'N' || c = '-' ||
  c = 'a' || c = 'c' || c = 'g' || c = 't' || c = 'n'

/-- `re.match(r'^[ACGTN-]{1,2}$', s, re.IGNORECASE)`: one or two
characters, each from the class. -/
def matchGT12 (s : String) : Bool :=
  (s.data.length = 1 || s.data.length = 2) && s.data.all isValidBaseCI

/-- `re.match(r'^[ACGTN-][/|][ACGTN-]$', s, re.IGNORECASE)`. -/
def matchSlashGT (s : String) : Bool :=
  match s.data with
  | [a, b, c] => isValidBaseCI a && (b = '/' || b = '|') && isValidBaseCI c
  | _ => false

/-- `part.startswith("rs") and re.match(r'rs\d+', part)`: starts with
`rs` followed by at least one digit (the `re.match` is start-anchored
only). -/
def matchesRsid (s : String) : Bool :=
  match s.data with
  | 'r' :: 's' :: c :: _ => c.isDigit
  | _ => false

/-- Python dict assignment `d[k] = v` on an association list kept in
insertion order (first occurrence updated in place). -/
def dictInsert : List (String × String) → String → String → List (String × String)
  | [], k, v => [(k, v)]
  | (k0, v0) :: rest, k, v =>
    if k0 = k then (k, v) :: rest else (k0, v0) :: dictInsert rest k v

/-- Python dict membership / indexing `k in d` and `d[k]`. -/
def dictGet? : List (String × String) → String → Option String
  | [], _ => none
  | (k0, v0) :: rest, k => if k0 = k then some v0 else dictGet? rest k

/-- Format 1 of `_process_microarray_line` (lines 143-147): with at least
four fields and the found rsID equal to the first field, take the fourth
field when it matches `^[ACGTN-]{1,2}$` and uppercase it. -/
def rawGenotypeFormat1 (rsid? : Option String) (parts : List String) :
    Option String :=
  match rsid?, parts with
  | some r, p0 :: _ :: _ :: p3 :: _ =>
    if r = p0 then (if matchGT12 p3 then some (strUpper p3) else none)
    else none
  | _, _ => none

/-- Formats 1-3 of `_process_microarray_line` (lines 142-163) tried in
order: Format 2 (lines 149-156) takes the first slash/pipe-delimited
field, uppercases it and strips the delimiters; Format 3 (lines 158-163)
takes the first 1-2 character genotype-shaped field after the first
field and uppercases it. -/
def extractRawGenotype (rsid? : Option String) (parts : List String) :
    Option String :=
  match rawGenotypeFormat1 rsid? parts with
  | some r => some r
  | none =>
    match (parts.find? matchSlashGT).map (fun g => stripDelims (strUpper g)) with
    | some r => some r
    | none => (parts.tail.find? matchGT12).map strUpper

/-- `SNPChecker._process_microarray_line` (lines 120-174): strip the line,
skip blanks and `#` comments, split on `[\t ,]`, require at least three
fields, locate the first rsID-shaped field, then try the three genotype
formats in order; store only when both an rsID and a raw genotype were
found and the raw genotype revalidates against `^[ACGTN-]{1,2}$`.
(`Option` models Python truthiness here: every candidate the source can
assign to `rsid` or `raw_genotype` is a nonempty string.) -/
def processMicroarrayLine (data : List (String × String)) (line : String) :
    List (String × String) :=
  let line := strTrim line
  if line.data.isEmpty || strStartsWith line "#" then data
  else
    let parts := splitParts line
    if parts.length < 3 then data
    else
      let rsid? := parts.find? matchesRsid
      let raw? := extractRawGenotype rsid? parts
      match rsid?, raw? with
      | some r, some raw =>
        if matchGT12 raw then dictInsert data r raw else data
      | _, _ => data

/-- `SNPChecker._load_microarray_data` (lines 90-109): the first line is
processed only when it starts with `rs` (otherwise treated as a header),
the remaining lines are always processed. -/
def loadMicroarrayData : List String → List (String × String)
  | [] => []
  | first :: rest =>
    let init := if strStartsWith first "rs" then processMicroarrayLine [] first else []
    rest.foldl processMicroarrayLine init

/-- An uppercase genotype character: what the stored raw genotypes are
made of after `_process_microarray_line` uppercases them. -/
def isUpperBase (c : Char) : Bool :=
  c = 'A' || c = 'C' || c = 'G' || c = 'T' || c = 'N' || c = '-'

/-- The invariant claimed of every stored raw genotype: one or two
characters, all uppercase bases (hence it matches `^[ACGTN-]{1,2}$` and
equals its own uppercasing). -/
def storedGenotypeOk (v : String) : Bool :=
  (v.data.length = 1 || v.data.length = 2) && v.data.all isUpperBase

/-! ## Genotype resolver, flat-table branch
(`SNPChecker._fetch_genotype`, lines 191-227) -/

/-- Lines 210-217: format a stored raw genotype (`AA`/`A` style) into the
`X/Y` canonical form; the length-1 f-string `f"{raw}/{raw}"` and the
length-2 f-string `f"{raw[0]}/{raw[1]}"` are written out as their
character lists. -/
def formatRawGenotype (raw : String) : String :=
  match raw.data with
  | [c] => ⟨[c, '/', c]⟩
  | [c1, c2] => ⟨[c1, '/', c2]⟩
  | _ => "Unknown/Unknown"

/-- The microarray branch of `_fetch_genotype` (lines 204-227): direct
dictionary lookup; a present key is revalidated and formatted, with the
pair returned twice ("For microarray files, these are the same"); a
missing key or invalid stored genotype yields `("0/0",
"Unknown/Unknown")`. -/
def fetchGenotypeMicroarray (data : List (String × String)) (rsid : String) :
    String × String :=
  match dictGet? data rsid with
  | some raw =>
    if matchGT12 raw then
      let formatted := formatRawGenotype raw
      (formatted, formatted)
    else ("0/0", "Unknown/Unknown")
  | none => ("0/0", "Unknown/Unknown")

/-- One observable lookup action of `_fetch_genotype`, used to state
which data source a call consulted. -/
inductive FetchStep where
  | microarrayLookup (rsid : String)
  | vcfIdLookup (rsid : String)
  | vcfPosLookup (chrpos : String)
deriving DecidableEq, Repr

/-- `SNPChecker._fetch_genotype` (lines 191-359) with its traced lookups.
The `is_vcf = False` branch (lines 204-227) returns from inside the
branch, so the VCF logic below it is never reached for a flat-table
source.  The VCF logic (lines 229-359) shells out to `bcftools` and is
abstracted as the oracle `vcfSide` together with its own trace. -/
def fetchGenotype (isVcf : Bool)
    (vcfSide : String → String → (String × String) × List FetchStep)
    (data : List (String × String)) (chrpos rsid : String) :
    (String × String) × List FetchStep :=
  if !isVcf then (fetchGenotypeMicroarray data rsid, [.microarrayLookup rsid])
  else vcfSide chrpos rsid

/-! ## Report driver (`SNPChecker.run_analysis`, lines 500-641, and
`SNPChecker.check_snp`, lines 361-428) -/

/-- A catalog entry as read from `snp_catalog.json`
(`catalog["categories"][section]` elements). -/
structure CatalogEntry where
  rs_id : String
  position : String
  ref_genotype : String
  alt_genotype : String
  description : String
deriving DecidableEq, Repr

/-- The `snp_data` string `f"{rs_id}|{position}|{ref_genotype}|{alt_genotype}|{description}"`
built by `run_analysis` before each check. -/
def snpDataOf (e : CatalogEntry) : String :=
  e.rs_id ++ "|" ++ e.position ++ "|" ++ e.ref_genotype ++ "|" ++
    e.alt_genotype ++ "|" ++ e.description

/-- `SNPChecker.check_snp` (lines 361-428) composed with a genotype
fetcher: split the packed data on `|`, reject records with fewer than five
fields (`.ok none` models the "Invalid SNP data format" print-and-return),
fetch, classify, and report the printed `(rsid, display_gt, status)` row.
A `ValueError` from the classification's allele unpacking propagates
(`.error`): `check_snp` has no `try`. -/
def checkSnp (fetch : String → String → String × String) (snp_data : String) :
    Except String (Option (String × String × String)) :=
  let parts := splitOnPipe snp_data
  if parts.length < 5 then .ok none
  else
    let rsid := parts.getD 0 ""
    let chrpos := parts.getD 1 ""
    let protective_gt := parts.getD 2 ""
    let risk_gt := parts.getD 3 ""
    let res := fetch chrpos rsid
    match checkSnpClassify protective_gt risk_gt res.2 with
    | .ok (display_gt, status) => .ok (some (rsid, display_gt, status))
    | .error e => .error e

/-- One entry of the threaded VCF path (lines 531-596): fetch, classify
with the threaded logic, and on any per-entry exception append an
`(rsid, "Error", "ERROR")` row (the per-SNP `try`/`except`). -/
def processEntryVcf (fetch : String → String → String × String)
    (e : CatalogEntry) : String × String × String :=
  let parts := splitOnPipe (snpDataOf e)
  let rsid := parts.getD 0 ""
  let chrpos := parts.getD 1 ""
  let ref_gt := parts.getD 2 ""
  let alt_gt := parts.getD 3 ""
  let res := fetch chrpos rsid
  match threadedClassify ref_gt alt_gt res.2 with
  | .ok (display_gt, status) => (rsid, display_gt, status)
  | .error _ => (rsid, "Error", "ERROR")

/-- The fetch calls made while processing one entry (both paths call
`_fetch_genotype` exactly once per entry, with `(chrpos, rsid)` taken
from the re-split `snp_data`). -/
def entryFetchCall (e : CatalogEntry) : String × String :=
  let parts := splitOnPipe (snpDataOf e)
  (parts.getD 1 "", parts.getD 0 "")

/-- Outcome of `run_analysis`. -/
inductive RunOutcome where
  /-- Line 514-516: unknown section; the error message lists the
  available section names and the method returns. -/
  | invalidSection (requested : String) (available : List String)
  /-- The per-section rows that were printed
  (`(rsid, display_gt, status)` per entry). -/
  | report (sections : List (String × List (String × String × String)))
  /-- Line 640-641: the outer `except` caught an exception part-way
  (rows already printed before it are not modelled). -/
  | analysisError (msg : String)
deriving DecidableEq, Repr

/-- Sequential (microarray) processing of a list of sections: runs
`check_snp` per entry; the first propagated exception aborts the whole
analysis into the outer handler. -/
def runSectionsMicroarray (fetch : String → String → String × String)
    (catalog : List (String × List CatalogEntry)) (names : List String) :
    Except String (List (String × List (String × String × String))) :=
  names.foldlM (fun acc name => do
    let entries := ((catalog.find? (fun kv => kv.1 = name)).map Prod.snd).getD []
    let rows ← entries.foldlM (fun rows e => do
      match checkSnp fetch (snpDataOf e) with
      | .ok (some row) => pure (rows ++ [row])
      | .ok none => pure rows
      | .error msg => throw msg) []
    pure (acc ++ [(name, rows)])) []

/-- `SNPChecker.run_analysis` (lines 500-641), returning the outcome and
the ordered list of `_fetch_genotype` calls made.  Unknown-section
validation (lines 510-519) happens before any processing.  For VCF input
the per-section work runs in threads; each section's row list is built
independently and printing happens in `sections_to_process` order with
empty sections skipped (lines 618-626), so the printed report is
deterministic and is modelled directly (the fetch-call trace lists calls
section by section in that same order; interleaving between threads is
not observable in the result). -/
def runAnalysis (catalog : List (String × List CatalogEntry)) (isVcf : Bool)
    (fetch : String → String → String × String) (sectionArg : String) :
    RunOutcome × List (String × String) :=
  let available := catalog.map Prod.fst
  if sectionArg ≠ "all" ∧ ¬ available.contains sectionArg then
    (.invalidSection sectionArg available, [])
  else
    let sections_to_process := if sectionArg = "all" then available else [sectionArg]
    let trace := sections_to_process.flatMap (fun name =>
      (((catalog.find? (fun kv => kv.1 = name)).map Prod.snd).getD []).map entryFetchCall)
    if isVcf then
      let printed := sections_to_process.filterMap (fun name =>
        let entries := ((catalog.find? (fun kv => kv.1 = name)).map Prod.snd).getD []
        let rows := entries.map (processEntryVcf fetch)
        if rows.isEmpty then none else some (name, rows))
      (.report printed, trace)
    else
      match runSectionsMicroarray fetch catalog sections_to_process with
      | .ok printed => (.report printed, trace)
      | .error msg => (.analysisError msg, trace)

/-! ## Pipeline stage cache and variant-calling pipeline
(`MicroarrayGenerator`, `genomekit/modules/microarray_generator.py`) -/

/-- Metadata of an on-disk file: modification time and byte size. -/
structure FileInfo where
  mtime : Int
  size : Nat
deriving DecidableEq, Repr

/-- `MIN_COMBINED_KIT_SIZE` (line 30). -/
def MIN_COMBINED_KIT_SIZE : Nat := 500000

/-- `MIN_MICROARRAY_ZIPSIZE` (line 29). -/
def MIN_MICROARRAY_ZIPSIZE : Nat := 2500000

/-- Modelled from the spec: `isValid(artifactPath, dependencyPath,
minSizeBytes)` (spec section 4.6) — true iff the artifact exists, its
modification time is strictly later than its dependency's, and its byte
size exceeds `minSizeBytes`.  Stated from the spec's words to compare
against the reuse checks actually written in the source. -/
def isValid (artifact : Option FileInfo) (dep : FileInfo) (minSize : Nat) : Bool :=
  match artifact with
  | some a => decide (dep.mtime < a.mtime) && decide (minSize < a.size)
  | none => false

/-- The on-disk state `generate_combined_kit` inspects (`none` = the file
does not exist). `inputFile` is the BAM/CRAM input, which the constructor
requires to exist. -/
structure PipelineState where
  inputFile : FileInfo
  combinedKitZip : Option FileInfo
  combinedKitTxt : Option FileInfo
  pileupVcf : Option FileInfo
  calledVcf : Option FileInfo
  annotatedVcf : Option FileInfo
  resultTab : Option FileInfo
  sortedResultTab : Option FileInfo
  ploidyFile : Option FileInfo
deriving DecidableEq, Repr

/-- Reuse check for the CombinedKit zip (lines 94-96): exists, strictly
newer than the input file, larger than `MIN_COMBINED_KIT_SIZE`. -/
def reuseCombinedKitZip (st : PipelineState) : Bool :=
  match st.combinedKitZip with
  | some z => decide (st.inputFile.mtime < z.mtime) &&
      decide (MIN_COMBINED_KIT_SIZE < z.size)
  | none => false

/-- Reuse check for the CombinedKit text file (lines 98-100). -/
def reuseCombinedKitTxt (st : PipelineState) : Bool :=
  match st.combinedKitTxt with
  | some t => decide (st.inputFile.mtime < t.mtime) &&
      decide (MIN_COMBINED_KIT_SIZE < t.size)
  | none => false

/-- Step 1 reuse check (line 149): `os.path.exists(temp_called_vcf) and
os.path.getsize(temp_called_vcf) > 0` — existence and nonzero size only. -/
def reuseCalledVcf (st : PipelineState) : Bool :=
  match st.calledVcf with
  | some f => decide (0 < f.size)
  | none => false

/-- Step 1a resume check (line 154): pileup exists with nonzero size. -/
def reusePileupVcf (st : PipelineState) : Bool :=
  match st.pileupVcf with
  | some f => decide (0 < f.size)
  | none => false

/-- Step 2 reuse check (line 267): annotated VCF exists with nonzero size. -/
def reuseAnnotatedVcf (st : PipelineState) : Bool :=
  match st.annotatedVcf with
  | some f => decide (0 < f.size)
  | none => false

/-- Step 4 reuse check (line 307): result tab exists with nonzero size. -/
def reuseResultTab (st : PipelineState) : Bool :=
  match st.resultTab with
  | some f => decide (0 < f.size)
  | none => false

/-- Step 5 reuse check (line 321): sorted result tab exists with nonzero
size. -/
def reuseSortedResultTab (st : PipelineState) : Bool :=
  match st.sortedResultTab with
  | some f => decide (0 < f.size)
  | none => false

/-- Step 6a reuse check (line 335): CombinedKit text exists and exceeds
`MIN_COMBINED_KIT_SIZE` — no modification-time comparison. -/
def reuseCombinedKitTxtStep6a (st : PipelineState) : Bool :=
  match st.combinedKitTxt with
  | some t => decide (MIN_COMBINED_KIT_SIZE < t.size)
  | none => false

/-- Per-format output reuse check in `generate_microarray_format`
(lines 408-410): the packaged output exists, is strictly newer than the
CombinedKit text file, and exceeds `MIN_MICROARRAY_ZIPSIZE`. -/
def reuseFormatOutputZip (outputZip : Option FileInfo) (combinedKitTxt : FileInfo) :
    Bool :=
  match outputZip with
  | some z => decide (combinedKitTxt.mtime < z.mtime) &&
      decide (MIN_MICROARRAY_ZIPSIZE < z.size)
  | none => false

/-- Result of `generate_combined_kit`'s final verification
(lines 363-375): `success` is the method's return value,
`degradedWarning` records whether the "some steps had errors" warning
branch (lines 370-372) was taken. -/
structure CombinedKitOutcome where
  success : Bool
  degradedWarning : Bool
deriving DecidableEq, Repr

/-- Lines 363-375 of `generate_combined_kit`: if the zip exists above
`MIN_COMBINED_KIT_SIZE`, return `True` when every tracked command
succeeded, else print the degraded warning and return `False`; with no
valid zip, return `False`. -/
def combinedKitVerify (combinedKitZip : Option FileInfo)
    (all_commands_successful : Bool) : CombinedKitOutcome :=
  match combinedKitZip with
  | some z =>
    if MIN_COMBINED_KIT_SIZE < z.size then
      if all_commands_successful then ⟨true, false⟩ else ⟨false, true⟩
    else ⟨false, false⟩
  | none => ⟨false, false⟩

/-- `process_all` (lines 500-545) abstracted over the CombinedKit result
and the per-format generation results: returns `(overall_success,
format_generation_attempted)`.  When `generate_combined_kit` returned
`False`, the run stops at once (lines 506-508) and no format is
generated; otherwise every requested format is attempted and overall
success additionally requires all of them to succeed (line 537). -/
def processAllModel (combinedKitSuccess : Bool) (formatResults : List Bool) :
    Bool × Bool :=
  if !combinedKitSuccess then (false, false)
  else (combinedKitSuccess && formatResults.all id, true)

/-- Outcome of Step 1 (variant calling) of `generate_combined_kit` for
the bcftools backend. -/
inductive Step1Result where
  /-- Line 149-150: existing called VCF reused, step skipped. -/
  | usedExistingCalled
  /-- The Python interpreter raised `UnboundLocalError`/`NameError` for
  the named local variable before running any command. -/
  | crashUnboundLocal (var : String)
  /-- Lines 181-185: mpileup failed, run aborted. -/
  | abortedPileupError
  /-- Lines 210-214: `bcftools call` failed, run aborted. -/
  | abortedCallError
  /-- Variant calling completed. -/
  | calledOk
deriving DecidableEq, Repr

/-- Step 1 of `generate_combined_kit`, bcftools backend (lines 149-214),
as a function of the on-disk state and the two external command results;
the second component records whether the default diploid ploidy file was
synthesized (lines 194-199).  In the resume-from-pileup branch
(lines 154-166) the call command f-string interpolates the local variable
`ploidy_file`, which is assigned only in the fresh-pileup branch
(line 191); since `ploidy_file` is assigned somewhere in the function,
Python treats it as local and raises `UnboundLocalError` at line 159
before any ploidy check or synthesis can run. -/
def step1Bcftools (st : PipelineState) (mpileupOk callOk : Bool) :
    Step1Result × Bool :=
  if reuseCalledVcf st then (.usedExistingCalled, false)
  else if reusePileupVcf st then (.crashUnboundLocal "ploidy_file", false)
  else if !mpileupOk then (.abortedPileupError, false)
  else
    let synthesizedPloidy := st.ploidyFile.isNone
    if !callOk then (.abortedCallError, synthesizedPloidy)
    else (.calledOk, synthesizedPloidy)

/-! ## Format fan-out row inclusion
(`MicroarrayGenerator.generate_microarray_format`, lines 454-472) -/

/-- The fallback row-inclusion rule (lines 459-472), used when no
per-format SNP list file exists.  `hash` stands for Python's builtin
`hash` on `str`, which CPython salts per process (`PYTHONHASHSEED`), so
one run of the program corresponds to one choice of this function;
`hash(snp_id) % 10` with Python's nonnegative `%` is `Int.emod`. -/
def includeSnpFallback (hash : String → Int) (format_name snp_id : String) :
    Bool :=
  if strStartsWith format_name "23andMe" then
    hasRs snp_id.data && decide (hash snp_id % 10 < 7)
  else if strStartsWith format_name "Ancestry" then
    hasRs snp_id.data && decide (hash snp_id % 10 < 6)
  else if strStartsWith format_name "FTDNA" then
    hasRs snp_id.data && decide (hash snp_id % 10 < 5)
  else
    hasRs snp_id.data && decide (hash snp_id % 10 < 4)

/-- The admission fraction numerator per format family as the spec
states it: 7/10 for 23andMe, 6/10 for Ancestry, 5/10 for FTDNA, 4/10
otherwise. -/
def admissionNumerator (format_name : String) : Int :=
  if strStartsWith format_name "23andMe" then 7
  else if strStartsWith format_name "Ancestry" then 6
  else if strStartsWith format_name "FTDNA" then 5
  else 4

/-- Modelled from the spec: the claimed admission rule — a row is
admitted iff its identifier contains `rs` and the hash-based sampling
rule admits it with the per-family fraction. -/
def specAdmit (hash : String → Int) (format_name snp_id : String) : Bool :=
  hasRs snp_id.data && decide (hash snp_id % 10 < admissionNumerator format_name)

/-- All values in a loaded microarray table satisfy the stored-genotype
invariant. -/
def dataOk (data : List (String × String)) : Prop :=
  ∀ kv ∈ data, storedGenotypeOk kv.2 = true

/-! ## Supporting lemmas -/

theorem data_mk (l : List Char) : (String.mk l).data = l := rfl

theorem validBaseCI_toUpper {c : Char} (h : isValidBaseCI c = true) :
    isUpperBase (Char.toUpper c) = true := by
  simp only [isValidBaseCI, Bool.or_eq_true, decide_eq_true_eq] at h
  rcases h with ((((((((((h | h) | h) | h) | h) | h) | h) | h) | h) | h) | h) <;>
    subst h <;> decide

theorem upperBase_not_delim {c : Char} (h : isUpperBase c = true) :
    (!(c = '/' || c = '|')) = true := by
  simp only [isUpperBase, Bool.or_eq_true, decide_eq_true_eq] at h
  rcases h with (((((h | h) | h) | h) | h) | h) <;> subst h <;> decide

theorem matchGT12_of_storedOk {v : String} (h : storedGenotypeOk v = true) :
    matchGT12 v = true := by
  simp only [storedGenotypeOk, Bool.and_eq_true, List.all_eq_true] at h
  obtain ⟨hlen, hall⟩ := h
  simp only [matchGT12, Bool.and_eq_true, List.all_eq_true]
  refine ⟨hlen, ?_⟩
  intro c hc
  have hu := hall c hc
  simp only [isUpperBase, Bool.or_eq_true, decide_eq_true_eq] at hu
  rcases hu with (((((h | h) | h) | h) | h) | h) <;> subst h <;> decide

theorem storedOk_of_matchGT12_upper {s : String} (h : matchGT12 s = true) :
    storedGenotypeOk (strUpper s) = true := by
  simp only [matchGT12, Bool.and_eq_true, List.all_eq_true] at h
  obtain ⟨hlen, hall⟩ := h
  simp only [storedGenotypeOk, strUpper, data_mk, Bool.and_eq_true,
    List.all_eq_true, List.length_map]
  refine ⟨hlen, ?_⟩
  intro c hc
  rw [List.mem_map] at hc
  obtain ⟨d, hd, rfl⟩ := hc
  exact validBaseCI_toUpper (hall d hd)

theorem storedOk_of_matchSlashGT {s : String} (h : matchSlashGT s = true) :
    storedGenotypeOk (stripDelims (strUpper s)) = true := by
  unfold matchSlashGT at h
  split at h
  case h_1 a b c heq =>
    simp only [Bool.and_eq_true, Bool.or_eq_true, decide_eq_true_eq] at h
    obtain ⟨⟨ha, hb⟩, hc⟩ := h
    have hta := validBaseCI_toUpper ha
    have htc := validBaseCI_toUpper hc
    have hpa := upperBase_not_delim hta
    have hpc := upperBase_not_delim htc
    have hbu : Char.toUpper b = b := by
      rcases hb with h | h <;> subst h <;> decide
    have hpb : (!(Char.toUpper b = '/' || Char.toUpper b = '|')) = false := by
      rw [hbu]; rcases hb with h | h <;> subst h <;> decide
    simp only [storedGenotypeOk, stripDelims, strUpper, data_mk, heq,
      List.map_cons, List.map_nil]
    rw [List.filter_cons_of_pos (by simpa using hpa),
        List.filter_cons_of_neg (by simpa using hpb),
        List.filter_cons_of_pos (by simpa using hpc)]
    simp [hta, htc]
  case h_2 => cases h

theorem format1_provenance (rsid? : Option String) (parts : List String) (r : String)
    (h : rawGenotypeFormat1 rsid? parts = some r) :
    ∃ t, matchGT12 t = true ∧ r = strUpper t := by
  unfold rawGenotypeFormat1 at h
  split at h
  case h_1 rr p0 q1 q2 p3 rest =>
    split at h
    · split at h
      · exact ⟨p3, by assumption, (Option.some.inj h).symm⟩
      · cases h
    · cases h
  case h_2 => cases h

theorem extractRaw_storedOk (rsid? : Option String) (parts : List String)
    (raw : String) (h : extractRawGenotype rsid? parts = some raw) :
    storedGenotypeOk raw = true := by
  unfold extractRawGenotype at h
  split at h
  case h_1 r heq =>
    obtain ⟨t, ht, hrt⟩ := format1_provenance rsid? parts r heq
    have hr := Option.some.inj h
    subst hr
    rw [hrt]
    exact storedOk_of_matchGT12_upper ht
  case h_2 hne =>
    split at h
    case h_1 r heq =>
      rw [Option.map_eq_some'] at heq
      obtain ⟨g, hg, hgr⟩ := heq
      have hmg := List.find?_some hg
      have hr := Option.some.inj h
      subst hr
      rw [← hgr]
      exact storedOk_of_matchSlashGT hmg
    case h_2 =>
      rw [Option.map_eq_some'] at h
      obtain ⟨t, ht, htr⟩ := h
      have hmt := List.find?_some ht
      rw [← htr]
      exact storedOk_of_matchGT12_upper hmt

theorem dataOk_insert : ∀ (data : List (String × String)) (k v : String),
    dataOk data → storedGenotypeOk v = true → dataOk (dictInsert data k v)
  | [], _, v, _, hv => by
    intro kv hkv
    simp only [dictInsert, List.mem_singleton] at hkv
    subst hkv; exact hv
  | (k0, v0) :: rest, k, v, hd, hv => by
    intro kv hkv
    rw [dictInsert] at hkv
    by_cases hk : k0 = k
    · rw [if_pos hk] at hkv
      rcases List.mem_cons.mp hkv with h | h
      · subst h; exact hv
      · exact hd kv (List.mem_cons_of_mem _ h)
    · rw [if_neg hk] at hkv
      rcases List.mem_cons.mp hkv with h | h
      · subst h; exact hd (k0, v0) (List.mem_cons_self _ _)
      · exact dataOk_insert rest k v (fun x hx => hd x (List.mem_cons_of_mem _ hx)) hv kv h

theorem processLine_dataOk (data : List (String × String)) (line : String)
    (hd : dataOk data) : dataOk (processMicroarrayLine data line) := by
  simp only [processMicroarrayLine]
  split
  · exact hd
  · split
    · exact hd
    · split
      case h_1 r raw hr hraw =>
        split
        · exact dataOk_insert data r raw hd (extractRaw_storedOk _ _ raw hraw)
        · exact hd
      case h_2 => exact hd

theorem foldl_dataOk : ∀ (lines : List String) (init : List (String × String)),
    dataOk init → dataOk (lines.foldl processMicroarrayLine init)
  | [], _, h => h
  | l :: ls, init, h => foldl_dataOk ls _ (processLine_dataOk init l h)

theorem load_dataOk (lines : List String) : dataOk (loadMicroarrayData lines) := by
  cases lines with
  | nil => intro kv hkv; cases hkv
  | cons first rest =>
    unfold loadMicroarrayData
    refine foldl_dataOk rest _ ?_
    split
    · exact processLine_dataOk [] first (fun kv hkv => by cases hkv)
    · intro kv hkv; cases hkv

theorem dictGet?_mem : ∀ (data : List (String × String)) (k v : String),
    dictGet? data k = some v → ∃ kv ∈ data, kv.2 = v
  | [], _, _, h => by cases h
  | (k0, v0) :: rest, k, v, h => by
    rw [dictGet?] at h
    by_cases hk : k0 = k
    · rw [if_pos hk] at h
      exact ⟨(k0, v0), List.mem_cons_self _ _, Option.some.inj h⟩
    · rw [if_neg hk] at h
      obtain ⟨kv, hmem, hv⟩ := dictGet?_mem rest k v h
      exact ⟨kv, List.mem_cons_of_mem _ hmem, hv⟩

theorem fetch_of_storedOk (data : List (String × String)) (rsid raw : String)
    (hget : dictGet? data rsid = some raw) (hok : storedGenotypeOk raw = true) :
    fetchGenotypeMicroarray data rsid =
      (formatRawGenotype raw, formatRawGenotype raw) := by
  unfold fetchGenotypeMicroarray
  rw [hget]
  simp [matchGT12_of_storedOk hok]

theorem mk3_ne_unknown (c1 c2 : Char) :
    (⟨[c1, '/', c2]⟩ : String) ≠ "Unknown/Unknown" := by
  intro hcontra
  have h3 : ([c1, '/', c2]).length = ("Unknown/Unknown" : String).data.length :=
    congrArg List.length (congrArg String.data hcontra)
  rw [show ("Unknown/Unknown" : String).data =
    ['U','n','k','n','o','w','n','/','U','n','k','n','o','w','n'] from rfl] at h3
  simp at h3

theorem formatRaw_ne_unknown {raw : String} (hok : storedGenotypeOk raw = true) :
    formatRawGenotype raw ≠ "Unknown/Unknown" := by
  simp only [storedGenotypeOk, Bool.and_eq_true, Bool.or_eq_true,
    decide_eq_true_eq] at hok
  obtain ⟨hlen, _⟩ := hok
  have hlen' : raw.data.length = 1 ∨ raw.data.length = 2 := hlen
  unfold formatRawGenotype
  rcases hd : raw.data with _ | ⟨c1, _ | ⟨c2, _ | ⟨c3, rest⟩⟩⟩
  · simp [hd] at hlen'
  · exact mk3_ne_unknown c1 c1
  · exact mk3_ne_unknown c1 c2
  · rw [hd] at hlen'
    rcases hlen' with h | h <;> simp at h

/-! ## Claim theorems -/

/-- Claim C1: for protective genotype `A/G`, risk genotype `G/G` and
resolved genotype `G/A`, the forward form `G/A` equals neither reference
genotype, the reversed form `A/G` matches the protective genotype, and
the result is display genotype `A/G` with status GOOD, in both the
sequential (`check_snp`) and the threaded (`run_analysis` VCF)
classification paths. -/
theorem c1_reversed_match_good :
    (("G/A" : String) ≠ "A/G" ∧ ("G/A" : String) ≠ "G/G") ∧
    checkSnpClassify "A/G" "G/G" "G/A" = .ok ("A/G", "GOOD") ∧
    threadedClassify "A/G" "G/G" "G/A" = .ok ("A/G", "GOOD") :=
  ⟨⟨by decide, by decide⟩, rfl, rfl⟩

/-- Claim C2, counterexample: the genotype `C/C` against protective
`A/G` / risk `G/G` does not yield VARIANT — its complement `G/G` equals
the risk genotype, so both paths classify it RISK; and for `C/C` against
protective `A/A` / risk `T/T` (homozygous, no representation matching),
the threaded path yields CARRIER, not VARIANT. -/
theorem c2_counterexample :
    checkSnpClassify "A/G" "G/G" "C/C" = .ok ("G/G", "RISK") ∧
    threadedClassify "A/G" "G/G" "C/C" = .ok ("G/G", "RISK") ∧
    threadedClassify "A/A" "T/T" "C/C" = .ok ("C/C", "CARRIER") :=
  ⟨rfl, rfl, rfl⟩

/-- Claim C2, amended: for every resolved genotype whose two alleles are
equal and none of whose four representations equals the protective or
the risk genotype, the sequential `check_snp` path returns VARIANT while
the threaded VCF path returns its default CARRIER (it never produces
VARIANT). -/
theorem c2_homozygous_nomatch (p r a g : String)
    (hsplit : splitOnSlash a = [g, g])
    (hslash : containsSlash a = true)
    (hunk : a ≠ "Unknown/Unknown")
    (h1 : a ≠ p) (h2 : a ≠ r)
    (h3 : g ++ "/" ++ g ≠ p) (h4 : g ++ "/" ++ g ≠ r)
    (h5 : getComplement g ++ "/" ++ getComplement g ≠ p)
    (h6 : getComplement g ++ "/" ++ getComplement g ≠ r) :
    checkSnpClassify p r a = .ok (a, "VARIANT") ∧
    threadedClassify p r a = .ok (a, "CARRIER") := by
  constructor
  · unfold checkSnpClassify
    rw [if_pos ⟨hslash, hunk⟩, hsplit]
    simp [h1, h2, h3, h4, h5, h6]
  · unfold threadedClassify
    rw [if_pos hunk, hsplit]
    simp [threadedStatusLoop, h1, h2, h3, h4, h5, h6]

/-- Witness for the amended C2 at genotype `C/C`, protective `A/A`,
risk `T/T`. -/
theorem c2_homozygous_nomatch_witness :
    checkSnpClassify "A/A" "T/T" "C/C" = .ok ("C/C", "VARIANT") ∧
    threadedClassify "A/A" "T/T" "C/C" = .ok ("C/C", "CARRIER") :=
  c2_homozygous_nomatch "A/A" "T/T" "C/C" "C" (by decide) (by decide) (by decide)
    (by decide) (by decide) (by decide) (by decide) (by decide) (by decide)

/-- Claim C3, counterexample: row inclusion is not invariant across runs
— CPython's salted string hash means two runs correspond to two
different hash functions, and for `rs123` under the 23andMe family a run
whose hash gives 0 admits the row while a run whose hash gives 9 does
not. -/
theorem c3_counterexample :
    includeSnpFallback (fun _ => 0) "23andMe_V3" "rs123" = true ∧
    includeSnpFallback (fun _ => 9) "23andMe_V3" "rs123" = false :=
  ⟨rfl, rfl⟩

/-- Claim C3, amended: for a fixed hash function (a single process),
row inclusion by the fallback rule is exactly: the identifier contains
`rs` and `hash(id) mod 10` is below the family's admission numerator
(7 for 23andMe, 6 for Ancestry, 5 for FTDNA, 4 otherwise). -/
theorem c3_fixed_hash_characterization (hash : String → Int)
    (format_name snp_id : String) :
    includeSnpFallback hash format_name snp_id =
      specAdmit hash format_name snp_id := by
  unfold includeSnpFallback specAdmit admissionNumerator
  split_ifs <;> rfl

/-- Claim C4, counterexample: the step-1 reuse check accepts a called
VCF that is older than its dependency (mtime 0 vs. input mtime 5), which
`isValid` rejects at every minimum size; the stale artifact is reused,
not recomputed. -/
theorem c4_counterexample :
    reuseCalledVcf ⟨⟨5, 1000⟩, none, none, none, some ⟨0, 1⟩, none, none, none, none⟩ = true ∧
    isValid (some ⟨0, 1⟩) ⟨5, 1000⟩ 0 = false :=
  ⟨rfl, rfl⟩

/-- Claim C4, amended: the CombinedKit zip/text reuse checks and the
per-format output reuse check each decide by `isValid` (existence,
strictly-newer modification time, size above the stage's threshold), but
the intermediate stage reuse checks (called VCF, annotated VCF, result
tab, sorted tab, and the step-6a text check) test only existence and a
size bound and are independent of modification times. -/
theorem c4_reuse_predicates (st : PipelineState) (oz : Option FileInfo)
    (f : FileInfo) (m : Int) :
    reuseCombinedKitZip st = isValid st.combinedKitZip st.inputFile MIN_COMBINED_KIT_SIZE ∧
    reuseCombinedKitTxt st = isValid st.combinedKitTxt st.inputFile MIN_COMBINED_KIT_SIZE ∧
    reuseFormatOutputZip oz f = isValid oz f MIN_MICROARRAY_ZIPSIZE ∧
    reuseCalledVcf { st with calledVcf := some ⟨m, f.size⟩ } =
      reuseCalledVcf { st with calledVcf := some f } ∧
    reuseAnnotatedVcf { st with annotatedVcf := some ⟨m, f.size⟩ } =
      reuseAnnotatedVcf { st with annotatedVcf := some f } ∧
    reuseResultTab { st with resultTab := some ⟨m, f.size⟩ } =
      reuseResultTab { st with resultTab := some f } ∧
    reuseSortedResultTab { st with sortedResultTab := some ⟨m, f.size⟩ } =
      reuseSortedResultTab { st with sortedResultTab := some f } ∧
    reuseCombinedKitTxtStep6a { st with combinedKitTxt := some ⟨m, f.size⟩ } =
      reuseCombinedKitTxtStep6a { st with combinedKitTxt := some f } :=
  ⟨rfl, rfl, rfl, rfl, rfl, rfl, rfl, rfl⟩

/-- Claim C5, counterexample: with the final artifact valid (size 600000
over the 500000 threshold) but a non-fatal stage failed,
`generate_combined_kit` prints the degraded warning yet returns failure,
and `process_all` then reports the run failed and attempts no format. -/
theorem c5_counterexample :
    combinedKitVerify (some ⟨10, 600000⟩) false = ⟨false, true⟩ ∧
    processAllModel false [true, true] = (false, false) :=
  ⟨rfl, rfl⟩

/-- Claim C5, amended: whenever a non-fatal stage failed and the final
combined artifact exists above the minimum-size threshold, the run emits
the degraded warning but reports failure — `generate_combined_kit`
returns `False` and `process_all` aborts before generating any format. -/
theorem c5_degraded_reports_failure (z : FileInfo) (fmts : List Bool)
    (hsize : MIN_COMBINED_KIT_SIZE < z.size) :
    combinedKitVerify (some z) false = ⟨false, true⟩ ∧
    processAllModel (combinedKitVerify (some z) false).success fmts =
      (false, false) := by
  simp [combinedKitVerify, processAllModel, hsize]

/-- Witness for the amended C5 at a 600000-byte artifact. -/
theorem c5_degraded_reports_failure_witness :
    combinedKitVerify (some ⟨10, 600000⟩) false = ⟨false, true⟩ ∧
    processAllModel (combinedKitVerify (some ⟨10, 600000⟩) false).success [true] =
      (false, false) :=
  c5_degraded_reports_failure ⟨10, 600000⟩ [true] (by decide)

/-- Claim C6: evaluating the step-1 control flow at the failing input —
called VCF absent, pileup VCF present and nonempty, ploidy file absent —
the resume-from-pileup branch crashes with an unbound-local error on
`ploidy_file` instead of synthesizing the default diploid file, while
the fresh-pileup path does synthesize it and proceeds to the call. -/
theorem c6_resume_path_crash :
    step1Bcftools ⟨⟨0, 1000⟩, none, none, some ⟨5, 100⟩, none, none, none, none, none⟩
      true true = (.crashUnboundLocal "ploidy_file", false) ∧
    step1Bcftools ⟨⟨0, 1000⟩, none, none, none, none, none, none, none, none⟩
      true true = (.calledOk, true) :=
  ⟨rfl, rfl⟩

/-- Claim C7: for a flat-table (microarray) source, every identifier
absent from the preloaded table resolves to the `"0/0"` /
`"Unknown/Unknown"` sentinel pair, and the only lookup performed is the
in-memory table lookup — the coordinate-based VCF fallback is never
consulted. -/
theorem c7_flat_absent_sentinel
    (vcfSide : String → String → (String × String) × List FetchStep)
    (data : List (String × String)) (chrpos rsid : String)
    (h : dictGet? data rsid = none) :
    fetchGenotype false vcfSide data chrpos rsid =
      (("0/0", "Unknown/Unknown"), [.microarrayLookup rsid]) := by
  simp [fetchGenotype, fetchGenotypeMicroarray, h]

/-- Witness for C7 at a one-entry table and an absent identifier. -/
theorem c7_flat_absent_sentinel_witness :
    fetchGenotype false (fun c _ => (("0/0", "Unknown/Unknown"), [.vcfPosLookup c]))
      [("rs1", "AG")] "1:100" "rs999" =
      (("0/0", "Unknown/Unknown"), [.microarrayLookup "rs999"]) :=
  c7_flat_absent_sentinel _ [("rs1", "AG")] "1:100" "rs999" (by decide)

/-- Claim C8: when `run_analysis` is invoked with a requested section
name other than `all` that is not in the loaded catalog, the whole
request fails with the list of valid section names, no per-entry
genotype lookup is attempted (empty fetch trace), and no per-section
results are produced. -/
theorem c8_unknown_section_fails
    (catalog : List (String × List CatalogEntry)) (isVcf : Bool)
    (fetch : String → String → String × String) (sec : String)
    (hne : sec ≠ "all") (hnot : (catalog.map Prod.fst).contains sec = false) :
    runAnalysis catalog isVcf fetch sec =
      (.invalidSection sec (catalog.map Prod.fst), []) := by
  have hnot' : ¬ ((catalog.map Prod.fst).contains sec = true) := by
    rw [hnot]; exact Bool.false_ne_true
  unfold runAnalysis
  rw [if_pos ⟨hne, hnot'⟩]

/-- Witness for C8 at a one-section catalog and an unknown request. -/
theorem c8_unknown_section_fails_witness :
    runAnalysis [("metabolism", [])] true (fun _ _ => ("0/0", "Unknown/Unknown"))
      "bogus" = (.invalidSection "bogus" ["metabolism"], []) :=
  c8_unknown_section_fails [("metabolism", [])] true _ "bogus" (by decide) (by decide)

/-- Claim C9: `complement(complement(x)) = x` on all twelve allele
tokens of the complement table, and the table maps A↔T, C↔G, N↔N and
gap↔gap case-preservingly (the function is total: every other input is
returned unchanged by the dictionary default). -/
theorem c9_complement_involution :
    ((["A","C","G","T","N","-","a","c","g","t","n"] : List String).all
      (fun x => getComplement (getComplement x) == x)) = true ∧
    getComplement "A" = "T" ∧ getComplement "T" = "A" ∧
    getComplement "C" = "G" ∧ getComplement "G" = "C" ∧
    getComplement "a" = "t" ∧ getComplement "t" = "a" ∧
    getComplement "c" = "g" ∧ getComplement "g" = "c" ∧
    getComplement "N" = "N" ∧ getComplement "n" = "n" ∧
    getComplement "-" = "-" := by decide

/-- Claim C10: every raw genotype stored by microarray loading matches
`^[ACGTN-]{1,2}$` and is uppercase, so for every identifier present in
the loaded table the flat-source resolution returns the formatted `X/Y`
genotype twice (raw call code and canonical genotype coincide) and the
invalid-genotype branch returning `"Unknown/Unknown"` is unreachable. -/
theorem c10_flat_table_invariant (lines : List String) (rsid raw : String)
    (h : dictGet? (loadMicroarrayData lines) rsid = some raw) :
    (matchGT12 raw = true ∧ raw.data.all isUpperBase = true) ∧
    fetchGenotypeMicroarray (loadMicroarrayData lines) rsid =
      (formatRawGenotype raw, formatRawGenotype raw) ∧
    formatRawGenotype raw ≠ "Unknown/Unknown" := by
  obtain ⟨kv, hmem, hv⟩ := dictGet?_mem _ _ _ h
  have hok : storedGenotypeOk raw = true := hv ▸ load_dataOk lines kv hmem
  have hall : raw.data.all isUpperBase = true := by
    simp only [storedGenotypeOk, Bool.and_eq_true] at hok
    exact hok.2
  have hok' : storedGenotypeOk raw = true := hv ▸ load_dataOk lines kv hmem
  exact ⟨⟨matchGT12_of_storedOk hok', hall⟩, fetch_of_storedOk _ _ _ h hok',
    formatRaw_ne_unknown hok'⟩

/-- Witness for C10 at a one-line 23andMe-style microarray file. -/
theorem c10_flat_table_invariant_witness :
    (matchGT12 "AG" = true ∧ ("AG" : String).data.all isUpperBase = true) ∧
    fetchGenotypeMicroarray (loadMicroarrayData ["rs123\t1\t100\tAG"]) "rs123" =
      (formatRawGenotype "AG", formatRawGenotype "AG") ∧
    formatRawGenotype "AG" ≠ "Unknown/Unknown" :=
  c10_flat_table_invariant ["rs123\t1\t100\tAG"] "rs123" "AG" (by decide)

end GenomeKit
